import Mathlib

/-!
Verification development for the single-file serverless agent in
`src/api/index.js`: a two-phase tool-calling orchestrator in front of the
Gemini content-generation API and the Auth0 Management API.

The JavaScript module is embedded shallowly:
* the module-level mutable pair `auth0Token` / `tokenExpiry` becomes an
  explicit `TokenState` threaded through the functions;
* every network interaction is an oracle value (`TokenWire`, `BackingWire`,
  `GeminiWire`) describing what the remote service answers on that call;
* thrown `Error`s become `Except.error` with a `Failure` carrying the kind
  and message; the handler's `try`/`catch` becomes a `match` on that
  `Except`;
* observable collaborator calls are recorded in an `Event` trace.
Machine numbers (`Date.now()` milliseconds, `expires_in` seconds) are
modelled as `Int`, matching exact JavaScript integer arithmetic on the
ranges involved.
-/

namespace TempChat

/-- JavaScript truthiness of an optional string: `undefined` / `null`
(`none`) and the empty string are falsy, every other string is truthy. -/
def jsTruthyStr : Option String → Bool
  | none => false
  | some s => s ≠ ""

/-! ## Credential cache: `getAuth0Token` (src/api/index.js lines 11-64) -/

/-- The module-level mutable state `let auth0Token = ''` and
`let tokenExpiry = 0`.  `auth0Token = ""` is the initial falsy value;
`tokenExpiry` is an absolute timestamp in milliseconds. -/
structure TokenState where
  auth0Token : String
  tokenExpiry : Int
  deriving Repr, DecidableEq

/-- Behaviour of the identity provider's token endpoint on one POST.
`ok accessToken expiresIn` is a 2xx response whose parsed JSON body carries
`access_token` and a numeric `expires_in` (seconds).  `err` covers every
failing interaction — non-2xx status, network error, unparseable body —
all of which reach the `catch` block and make the function return `null`
without a state update (the assignments on lines 55-56 only run on the
well-formed success path). -/
inductive TokenWire where
  | ok (accessToken : String) (expiresIn : Int)
  | err (msg : String)
  deriving Repr, DecidableEq

/-- Result of one `getAuth0Token` call: the returned value (`none` models
the `null` of the catch path), the module state afterwards, and how many
network requests to the identity provider the call issued (0 or 1). -/
structure TokenFetchResult where
  token : Option String
  state : TokenState
  networkCalls : Nat
  deriving Repr, DecidableEq

/-- `getAuth0Token` (lines 20-64).  Returns the cached token when
`auth0Token && tokenExpiry > now`; otherwise performs the single fetch
described by `wire`: on success stores the token, sets
`tokenExpiry = now + (expires_in - 300) * 1000` and returns the token;
on failure returns `null` leaving the state unchanged. -/
def getAuth0Token (st : TokenState) (now : Int) (wire : TokenWire) :
    TokenFetchResult :=
  if st.auth0Token ≠ "" ∧ st.tokenExpiry > now then
    { token := some st.auth0Token, state := st, networkCalls := 0 }
  else
    match wire with
    | .ok accessToken expiresIn =>
        { token := some accessToken
          state := { auth0Token := accessToken
                     tokenExpiry := now + (expiresIn - 300) * 1000 }
          networkCalls := 1 }
    | .err _ => { token := none, state := st, networkCalls := 1 }

/-- Ghost quantity: the absolute expiry (in ms) the provider declared for a
token fetched at `now` with reported lifetime `expiresIn` seconds. -/
def providerDeclaredExpiry (now expiresIn : Int) : Int :=
  now + expiresIn * 1000

/-- Ghost reconstruction of the provider-declared expiry from a cache
state: for any state written by the success path of `getAuth0Token`, the
stored expiry is exactly the provider-declared expiry minus the 300 s
safety margin, so the declared expiry is `tokenExpiry + 300 * 1000`. -/
def cachedProviderExpiry (st : TokenState) : Int :=
  st.tokenExpiry + 300 * 1000

/-! ## Gemini wire format and the two gateway calls (lines 133-204) -/

/-- A `functionCall` / `function_call` object inside a response part; the
`name` field may be absent. -/
structure FunctionCallObj where
  name : Option String
  deriving Repr, DecidableEq

/-- One element of `candidates[0].content.parts`.  The handler reads the
camel-case `functionCall` key (line 246); the snake-case `function_call`
key is representable so that responses using that styling can be stated,
and `text` is the plain-text payload.  Absent keys are `none`. -/
structure Part where
  functionCall : Option FunctionCallObj := none
  function_call : Option FunctionCallObj := none
  text : Option String := none
  deriving Repr, DecidableEq

/-- `candidates[i].content`; the `parts` array may be absent. -/
structure Content where
  parts : Option (List Part)
  deriving Repr, DecidableEq

/-- One element of `data.candidates`; its `content` may be absent. -/
structure Candidate where
  content : Option Content
  deriving Repr, DecidableEq

/-- Behaviour of the Gemini endpoint on one POST: a non-2xx status with a
body text, or a 2xx status whose parsed JSON body has the given
`candidates` field (`none` when the field is missing). -/
inductive GeminiWire where
  | httpError (status : Nat) (body : String)
  | ok (candidates : Option (List Candidate))
  deriving Repr, DecidableEq

/-- The failure taxonomy.  Each constructor corresponds to one family of
thrown `Error`s in the source; the message text is carried so that
theorems can state that it never reaches the HTTP caller. -/
inductive Failure where
  | gatewayError (msg : String)
  | credentialUnavailable (msg : String)
  | toolNotFound (name : String)
  | upstreamError (status : Nat) (body : String)
  | typeError (msg : String)
  deriving Repr, DecidableEq

/-- Phase-1 gateway `callGeminiWithTools` (lines 133-162).  On non-2xx it
throws (line 155).  On 2xx it evaluates `data.candidates[0].content`:
a missing `candidates` field or an empty array raises a `TypeError`
(reading `[0]` of `undefined`, or `.content` of `undefined`), modelled as
a thrown `gatewayError`; otherwise the first candidate's `content` is
returned — possibly `undefined` (`none`), which is a non-throwing
return. -/
def callGeminiWithTools : GeminiWire → Except Failure (Option Content)
  | .httpError status body =>
      .error (.gatewayError ("Gemini API call failed with status: " ++
        toString status ++ ". Response: " ++ body))
  | .ok none =>
      .error (.gatewayError "TypeError: cannot read 0 of undefined")
  | .ok (some []) =>
      .error (.gatewayError "TypeError: cannot read content of undefined")
  | .ok (some (c :: _)) => .ok c.content

/-- Phase-2 result extraction inside `callGeminiForResponse`
(lines 186-204): non-2xx throws; otherwise
`data.candidates[0].content.parts[0].text` is read, and a missing level
at any step before `text` raises a `TypeError` (modelled `gatewayError`);
a present first part whose `text` is absent yields `undefined` (`none`)
without an error. -/
def extractFinalText : GeminiWire → Except Failure (Option String)
  | .httpError status body =>
      .error (.gatewayError ("Gemini API call failed with status: " ++
        toString status ++ ". Response: " ++ body))
  | .ok none =>
      .error (.gatewayError "TypeError: cannot read 0 of undefined")
  | .ok (some []) =>
      .error (.gatewayError "TypeError: cannot read content of undefined")
  | .ok (some (c :: _)) =>
      match c.content with
      | none => .error (.gatewayError "TypeError: cannot read parts of undefined")
      | some content =>
          match content.parts with
          | none => .error (.gatewayError "TypeError: cannot read 0 of undefined")
          | some [] => .error (.gatewayError "TypeError: cannot read text of undefined")
          | some (p :: _) => .ok p.text

/-! ## Tool registry and tool bodies (lines 66-131, 206-222) -/

/-- A parsed backing-API response body (`ToolResult`), opaque to the
orchestrator; represented by its JSON serialization. -/
abbrev ToolResult := String

/-- Behaviour of one backing-API GET: 2xx with a parsed body, or non-2xx
with a status and the (stringified) body, which makes the tool throw. -/
inductive BackingWire where
  | ok (data : ToolResult)
  | err (status : Nat) (body : String)
  deriving Repr, DecidableEq

/-- Membership test `Auth0Api[functionName]` (line 255) together with the
endpoint the named tool targets (lines 76, 97, 118): an exact,
case-sensitive string match on the three registered keys. -/
def auth0ApiUrl (domain name : String) : Option String :=
  if name = "list_users" then
    some ("https://" ++ domain ++ "/api/v2/users")
  else if name = "get_tenant_settings" then
    some ("https://" ++ domain ++ "/api/v2/tenants/settings")
  else if name = "list_signing_keys" then
    some ("https://" ++ domain ++ "/api/v2/keys/signing")
  else none

/-- Result of calling an inherited `Object.prototype` member with an empty
argument list and the `Auth0Api` object literal as receiver (line 256):
a JSON-representable value (recorded by its JSON serialization), the
value `undefined`, or a thrown TypeError. -/
inductive ProtoCall where
  | value (d : ToolResult)
  | undef
  | typeErr (msg : String)
  deriving Repr, DecidableEq

/-- The bracket lookup `Auth0Api[functionName]` at line 255 does not stop
at the object literal's own keys: when the name is not an own key it still
finds the inherited members of `Object.prototype`, every one of which is
truthy, so line 256 calls the inherited function instead of reaching the
`Function ... not found.` throw.  This maps each inherited member name to
the behaviour of that call: `toString` and `toLocaleString` return the
string `[object Object]`; `hasOwnProperty`, `isPrototypeOf` and
`propertyIsEnumerable` (called without arguments) return `false`;
`constructor` returns a fresh empty object and `valueOf` returns the
receiver, both of which `JSON.stringify` later renders as an empty object
(function-valued properties are dropped); `__lookupGetter__` and
`__lookupSetter__` return `undefined`; `__defineGetter__` and
`__defineSetter__` throw a TypeError (their argument is not a function),
and so does calling `__proto__` (its value is an object, not a
function). -/
def objectProtoMember (name : String) : Option ProtoCall :=
  if name = "toString" ∨ name = "toLocaleString" then
    some (.value "\"[object Object]\"")
  else if name = "hasOwnProperty" ∨ name = "isPrototypeOf" ∨
      name = "propertyIsEnumerable" then
    some (.value "false")
  else if name = "constructor" ∨ name = "valueOf" then
    some (.value "\x7b\x7d")
  else if name = "__lookupGetter__" ∨ name = "__lookupSetter__" then
    some ProtoCall.undef
  else if name = "__defineGetter__" ∨ name = "__defineSetter__" then
    some (.typeErr "TypeError: Getter must be a function")
  else if name = "__proto__" then
    some (.typeErr "TypeError: Auth0Api[functionName] is not a function")
  else none

/-- Observable collaborator calls, in order of occurrence. -/
inductive Event where
  | geminiPhase1 (prompt : String)
  | tokenEndpoint
  | backingApi (url : String)
  | toolInvoked (name : String)
  | geminiPhase2 (userText : String) (functionName : String) (data : ToolResult)
  | geminiPhase2Undefined (userText : String) (functionName : String)
  deriving Repr, DecidableEq

/-- Result of invoking one registered tool. -/
structure ToolRun where
  result : Except Failure ToolResult
  state : TokenState
  events : List Event

/-- Common body of the three `Auth0Api` tools (lines 71-130), which differ
only in the URL: obtain a token via `getAuth0Token`; a falsy token throws
`Could not retrieve Auth0 token.`; otherwise issue one GET to `url` with
the bearer token; a non-2xx response throws with the status and body;
a 2xx response returns the parsed body. -/
def invokeAuth0Tool (url : String) (st : TokenState) (now : Int)
    (tw : TokenWire) (backing : String → BackingWire) : ToolRun :=
  let r := getAuth0Token st now tw
  let ev : List Event :=
    if r.networkCalls = 0 then [] else [Event.tokenEndpoint]
  if jsTruthyStr r.token then
    match backing url with
    | .ok d => ⟨.ok d, r.state, ev ++ [Event.backingApi url]⟩
    | .err s b => ⟨.error (.upstreamError s b), r.state, ev ++ [Event.backingApi url]⟩
  else
    ⟨.error (.credentialUnavailable "Could not retrieve Auth0 token."), r.state, ev⟩

/-! ## Phase-2 payload construction (lines 164-181) -/

/-- `JSON.stringify(toolResponse.response)` where the envelope is
`res = new object with single field data` built on line 263; the opaque
`ToolResult` stands for its own serialization. -/
def stringifyEnvelope (d : ToolResult) : String :=
  "\x7b\"data\":" ++ d ++ "\x7d"

/-- The user-role text of the phase-2 request body (line 169) given the
serialized form of `toolResponse.response` (`JSON.stringify` renders the
envelope `\x7bdata: undefined\x7d` as an empty object). -/
def phase2UserTextRaw (prompt serialized : String) : String :=
  "Given the following user query: \"" ++ prompt ++
    "\" and the API response: \"" ++ serialized ++
    "\", please provide a concise and professional summary. Format the information with clear, bold headings and use bullet points for lists to make it easy to read."

/-- The user-role text of the phase-2 payload (line 169), embedding
the original prompt and the serialized tool response envelope. -/
def phase2UserText (prompt : String) (d : ToolResult) : String :=
  phase2UserTextRaw prompt (stringifyEnvelope d)

/-! ## The request handler `module.exports` (lines 225-274) -/

/-- The JSON body the handler sends: a `response` field (whose value can be
the `undefined` propagated from a phase-2 part with no text, modelled
`none`) or an `error` field. -/
inductive Body where
  | responseField (t : Option String)
  | errorField (msg : String)
  deriving Repr, DecidableEq

/-- The inbound request: HTTP method and the `prompt` field of the JSON
body (`none` when absent). -/
structure Request where
  method : String
  prompt : Option String
  deriving Repr, DecidableEq

/-- The whole observable outcome of one handler invocation: HTTP status,
response body, trace of collaborator calls, final module state. -/
structure HandlerResult where
  status : Nat
  body : Body
  events : List Event
  state : TokenState
  deriving Repr, DecidableEq

/-- The environment of one request: configuration plus the behaviour of
every remote service on the (at most one) call this request makes to it. -/
structure World where
  auth0Domain : String
  now : Int
  tokenWire : TokenWire
  backing : String → BackingWire
  phase1Wire : GeminiWire
  phase2Wire : GeminiWire

/-- Fallback text of line 268. -/
def fallbackText : String :=
  "I am sorry, I could not fulfill your request."

/-- The generic 500 body of line 272. -/
def genericErrorText : String :=
  "Apologies, I encountered an internal error. Please check the server logs."

/-- `geminiResponse.parts?.[0]?.text` (line 268). -/
def firstPartText (content : Content) : Option String :=
  match content.parts with
  | some (p :: _) => p.text
  | _ => none

/-- `geminiResponse.parts?.[0]?.text || fallback` (line 268): the first
part's text when truthy, the fallback otherwise. -/
def plainResponseText (content : Content) : String :=
  match firstPartText content with
  | some t => if t = "" then fallbackText else t
  | none => fallbackText

/-- Result of the `try` block of the handler (lines 243-269): the value of
the 200 `response` field on success, the thrown failure otherwise, plus
the state and event trace. -/
structure OrchRun where
  result : Except Failure (Option String)
  state : TokenState
  events : List Event

/-- The `try` block of the handler (lines 243-269).  Phase 1 is called;
a returned `undefined` content makes line 245 (`geminiResponse.parts`)
throw a `TypeError`.  The first part whose `functionCall` key is truthy is
selected (line 246); when it exists and carries a truthy `name`
(line 250), `Auth0Api[functionName]` is looked up: an own key runs the
matching tool, an inherited `Object.prototype` member is also truthy at
line 255 and its call at line 256 yields the behaviour described by
`objectProtoMember`, and only a name found nowhere reaches the
`Function ... not found.` throw.  A produced value — own tool result or
inherited-call result — flows to phase 2 with the original prompt and the
envelope `name + response.data` (lines 261-264).  Otherwise the
plain-text path of line 268 answers directly. -/
def orchestrate (prompt : String) (w : World) (st : TokenState) : OrchRun :=
  let ev : List Event := [Event.geminiPhase1 prompt]
  match callGeminiWithTools w.phase1Wire with
  | .error e => ⟨.error e, st, ev⟩
  | .ok none =>
      ⟨.error (.gatewayError "TypeError: cannot read parts of undefined"), st, ev⟩
  | .ok (some content) =>
      let parts := content.parts.getD []
      match parts.find? (fun q => q.functionCall.isSome) with
      | some p =>
          match p.functionCall with
          | some fc =>
              if jsTruthyStr fc.name then
                let functionName := fc.name.getD ""
                match auth0ApiUrl w.auth0Domain functionName with
                | some url =>
                    let run := invokeAuth0Tool url st w.now w.tokenWire w.backing
                    let ev := ev ++ [Event.toolInvoked functionName] ++ run.events
                    match run.result with
                    | .error e => ⟨.error e, run.state, ev⟩
                    | .ok d =>
                        let ev := ev ++
                          [Event.geminiPhase2 (phase2UserText prompt d) functionName d]
                        match extractFinalText w.phase2Wire with
                        | .error e => ⟨.error e, run.state, ev⟩
                        | .ok t => ⟨.ok t, run.state, ev⟩
                | none =>
                    match objectProtoMember functionName with
                    | some (ProtoCall.value d) =>
                        let ev := ev ++ [Event.toolInvoked functionName] ++
                          [Event.geminiPhase2 (phase2UserText prompt d) functionName d]
                        match extractFinalText w.phase2Wire with
                        | .error e => ⟨.error e, st, ev⟩
                        | .ok t => ⟨.ok t, st, ev⟩
                    | some ProtoCall.undef =>
                        let ev := ev ++ [Event.toolInvoked functionName] ++
                          [Event.geminiPhase2Undefined
                            (phase2UserTextRaw prompt "\x7b\x7d") functionName]
                        match extractFinalText w.phase2Wire with
                        | .error e => ⟨.error e, st, ev⟩
                        | .ok t => ⟨.ok t, st, ev⟩
                    | some (ProtoCall.typeErr m) =>
                        ⟨.error (.typeError m), st,
                          ev ++ [Event.toolInvoked functionName]⟩
                    | none => ⟨.error (.toolNotFound functionName), st, ev⟩
              else ⟨.ok (some (plainResponseText content)), st, ev⟩
          | none => ⟨.ok (some (plainResponseText content)), st, ev⟩
      | none => ⟨.ok (some (plainResponseText content)), st, ev⟩

/-- `module.exports` (lines 225-274): method gate, prompt validation, then
the `try` block with its `catch` collapsing every failure to the fixed
500 body. -/
def handler (req : Request) (w : World) (st : TokenState) : HandlerResult :=
  if req.method ≠ "POST" then
    ⟨405, .errorField "Method Not Allowed", [], st⟩
  else if !jsTruthyStr req.prompt then
    ⟨400, .errorField "Prompt is required.", [], st⟩
  else
    let run := orchestrate (req.prompt.getD "") w st
    match run.result with
    | .ok t => ⟨200, .responseField t, run.events, run.state⟩
    | .error _ => ⟨500, .errorField genericErrorText, run.events, run.state⟩

/-! ## Helper lemmas about the credential cache -/

theorem getAuth0Token_cached (st : TokenState) (now : Int) (w : TokenWire)
    (h : st.auth0Token ≠ "" ∧ st.tokenExpiry > now) :
    getAuth0Token st now w = ⟨some st.auth0Token, st, 0⟩ := by
  unfold getAuth0Token
  rw [if_pos h]

theorem getAuth0Token_refresh_count (st : TokenState) (now : Int) (w : TokenWire)
    (h : ¬(st.auth0Token ≠ "" ∧ st.tokenExpiry > now)) :
    (getAuth0Token st now w).networkCalls = 1 := by
  unfold getAuth0Token
  rw [if_neg h]
  cases w <;> rfl

theorem getAuth0Token_calls_le_one (st : TokenState) (now : Int) (w : TokenWire) :
    (getAuth0Token st now w).networkCalls ≤ 1 := by
  unfold getAuth0Token
  split
  · exact Nat.zero_le 1
  · cases w <;> simp

theorem getAuth0Token_token_state (st : TokenState) (now : Int) (w : TokenWire)
    (tok : String) (h : (getAuth0Token st now w).token = some tok) :
    (getAuth0Token st now w).state.auth0Token = tok := by
  unfold getAuth0Token at h ⊢
  split at h <;> split
  · simp only [Option.some.injEq] at h
    simp [h]
  · simp_all
  · simp_all
  · cases w with
    | ok a e => simp only [Option.some.injEq] at h; simp [h]
    | err m => simp at h

/-! ## Claim C3 -/

/-- C3 as stated is false: a fresh token whose provider-declared lifetime
is below the 300 s margin is still returned to the caller.  Concretely,
with an empty cache at time 0 and the provider answering
`expires_in = 0`, `getAuth0Token` returns the token even though the
provider-declared expiry is time 0, i.e. the remaining margin is 0 ms,
less than the required 300 s. -/
theorem getAuth0Token_margin_cex :
    (getAuth0Token ⟨"", 0⟩ 0 (TokenWire.ok "tok" 0)).token = some "tok" ∧
    providerDeclaredExpiry 0 0 - 0 < 300 * 1000 := by
  decide

/-- C3 (amended): every token `getAuth0Token` returns has at least 300 s
of margin left before the provider-declared expiry (reconstructed from
the stored expiry), provided that when the call performs a successful
fetch the provider reports a lifetime of at least 300 s.  Unconditionally
— for any wire behaviour — a cached token is returned (zero network
calls) only while `now` is strictly before the stored expiry, and a
successful refresh stores `tokenExpiry = now + (expires_in - 300) * 1000`,
which is exactly the provider-declared expiry minus the 300 s margin. -/
theorem getAuth0Token_margin_only_valid (st : TokenState) (now : Int) :
    (∀ (wire : TokenWire),
      (∀ tk L, wire = TokenWire.ok tk L → 300 ≤ L) →
      (getAuth0Token st now wire).token.isSome = true →
      300 * 1000 ≤ cachedProviderExpiry (getAuth0Token st now wire).state - now) ∧
    (∀ (tk : String) (L : Int),
      (getAuth0Token st now (TokenWire.ok tk L)).networkCalls = 1 →
      (getAuth0Token st now (TokenWire.ok tk L)).state.tokenExpiry =
          now + (L - 300) * 1000 ∧
      cachedProviderExpiry (getAuth0Token st now (TokenWire.ok tk L)).state =
        providerDeclaredExpiry now L) ∧
    (∀ (wire : TokenWire),
      (getAuth0Token st now wire).networkCalls = 0 →
      now < st.tokenExpiry ∧ (getAuth0Token st now wire).state = st) := by
  by_cases hc : st.auth0Token ≠ "" ∧ st.tokenExpiry > now
  · refine ⟨?_, ?_, ?_⟩
    · intro wire _ _
      rw [getAuth0Token_cached st now wire hc]
      dsimp only [cachedProviderExpiry]
      have := hc.2
      omega
    · intro tk L h
      rw [getAuth0Token_cached st now _ hc] at h
      simp at h
    · intro wire _
      rw [getAuth0Token_cached st now wire hc]
      exact ⟨hc.2, rfl⟩
  · refine ⟨?_, ?_, ?_⟩
    · intro wire hok hsome
      cases wire with
      | ok tk L =>
          have hL := hok tk L rfl
          unfold getAuth0Token
          rw [if_neg hc]
          dsimp only [cachedProviderExpiry]
          omega
      | err m =>
          unfold getAuth0Token at hsome
          rw [if_neg hc] at hsome
          simp at hsome
    · intro tk L _
      unfold getAuth0Token
      rw [if_neg hc]
      dsimp only [cachedProviderExpiry, providerDeclaredExpiry]
      refine ⟨rfl, ?_⟩
      omega
    · intro wire h0
      have h1 := getAuth0Token_refresh_count st now wire hc
      omega

/-- Witness for C3 (amended) at a concrete input: empty cache, `now = 0`,
provider lifetime 86400 s. -/
theorem getAuth0Token_margin_only_valid_witness :
    300 * 1000 ≤
      cachedProviderExpiry
        (getAuth0Token ⟨"", 0⟩ 0 (TokenWire.ok "t" 86400)).state - 0 :=
  (getAuth0Token_margin_only_valid ⟨"", 0⟩ 0).1 (TokenWire.ok "t" 86400)
    (fun tk L h => by injection h with h1 h2; omega) (by decide)

/-! ## Claim C4 -/

/-- C4: when a second `getAuth0Token` call happens while the first call's
token is still within its validity window (strictly before the stored
expiry, which already has the 300 s margin subtracted), the second call
issues no network request and the two calls together issue at most one;
and any call made at or after the stored expiry issues exactly one
refresh request. -/
theorem getAuth0Token_reuse (st : TokenState) (t1 t2 : Int)
    (w1 w2 : TokenWire) (tok : String) :
    ((getAuth0Token st t1 w1).token = some tok → tok ≠ "" →
      t2 < (getAuth0Token st t1 w1).state.tokenExpiry →
      (getAuth0Token (getAuth0Token st t1 w1).state t2 w2).networkCalls = 0 ∧
      (getAuth0Token st t1 w1).networkCalls +
        (getAuth0Token (getAuth0Token st t1 w1).state t2 w2).networkCalls ≤ 1) ∧
    (∀ (st2 : TokenState) (now2 : Int) (wx : TokenWire),
      st2.tokenExpiry ≤ now2 → (getAuth0Token st2 now2 wx).networkCalls = 1) := by
  constructor
  · intro h1 hne h2
    have hst := getAuth0Token_token_state st t1 w1 tok h1
    have hcond : (getAuth0Token st t1 w1).state.auth0Token ≠ "" ∧
        (getAuth0Token st t1 w1).state.tokenExpiry > t2 := ⟨by rw [hst]; exact hne, h2⟩
    have h0 : (getAuth0Token (getAuth0Token st t1 w1).state t2 w2).networkCalls = 0 := by
      rw [getAuth0Token_cached _ t2 w2 hcond]
    refine ⟨h0, ?_⟩
    rw [h0]
    have := getAuth0Token_calls_le_one st t1 w1
    omega
  · intro st2 now2 wx hexp
    exact getAuth0Token_refresh_count st2 now2 wx (fun h => by omega)

/-- Witness for C4 at a concrete input: empty cache, first call at time 0
refreshes (lifetime 86400 s), second call at time 1000 ms reuses the
cached token with zero further network requests. -/
theorem getAuth0Token_reuse_witness :
    (getAuth0Token
      (getAuth0Token ⟨"", 0⟩ 0 (TokenWire.ok "t" 86400)).state
      1000 (TokenWire.err "down")).networkCalls = 0 ∧
    (getAuth0Token ⟨"", 0⟩ 0 (TokenWire.ok "t" 86400)).networkCalls +
      (getAuth0Token
        (getAuth0Token ⟨"", 0⟩ 0 (TokenWire.ok "t" 86400)).state
        1000 (TokenWire.err "down")).networkCalls ≤ 1 :=
  (getAuth0Token_reuse ⟨"", 0⟩ 0 1000 (TokenWire.ok "t" 86400)
    (TokenWire.err "down") "t").1 (by decide) (by decide) (by decide)

/-! ## Helper lemmas about the handler and orchestration -/

theorem handler_of_ok (req : Request) (w : World) (st : TokenState)
    (t : Option String)
    (hm : req.method = "POST") (hp : jsTruthyStr req.prompt = true)
    (h : (orchestrate (req.prompt.getD "") w st).result = .ok t) :
    handler req w st = ⟨200, .responseField t,
      (orchestrate (req.prompt.getD "") w st).events,
      (orchestrate (req.prompt.getD "") w st).state⟩ := by
  unfold handler
  rw [if_neg (by simp [hm]), if_neg (by simp [hp])]
  simp only [h]

theorem handler_of_error (req : Request) (w : World) (st : TokenState)
    (e : Failure)
    (hm : req.method = "POST") (hp : jsTruthyStr req.prompt = true)
    (h : (orchestrate (req.prompt.getD "") w st).result = .error e) :
    handler req w st = ⟨500, .errorField genericErrorText,
      (orchestrate (req.prompt.getD "") w st).events,
      (orchestrate (req.prompt.getD "") w st).state⟩ := by
  unfold handler
  rw [if_neg (by simp [hm]), if_neg (by simp [hp])]
  simp only [h]

theorem orchestrate_plain (prompt : String) (w : World) (st : TokenState)
    (content : Content) (cs : List Candidate)
    (hw : w.phase1Wire = GeminiWire.ok (some (⟨some content⟩ :: cs)))
    (hfind : (content.parts.getD []).find? (fun q => q.functionCall.isSome) = none) :
    orchestrate prompt w st =
      ⟨.ok (some (plainResponseText content)), st, [Event.geminiPhase1 prompt]⟩ := by
  unfold orchestrate
  rw [hw]
  simp only [callGeminiWithTools, hfind]

theorem orchestrate_tool_shape (prompt : String) (w : World) (st : TokenState)
    (content : Content) (cs : List Candidate) (p : Part) (fc : FunctionCallObj)
    (n url : String)
    (hw : w.phase1Wire = GeminiWire.ok (some (⟨some content⟩ :: cs)))
    (hfind : (content.parts.getD []).find? (fun q => q.functionCall.isSome) = some p)
    (hfc : p.functionCall = some fc) (hn : fc.name = some n) (hne : n ≠ "")
    (hurl : auth0ApiUrl w.auth0Domain n = some url) :
    orchestrate prompt w st =
      (match (invokeAuth0Tool url st w.now w.tokenWire w.backing).result with
      | .error e => ⟨.error e,
          (invokeAuth0Tool url st w.now w.tokenWire w.backing).state,
          [Event.geminiPhase1 prompt] ++ [Event.toolInvoked n] ++
            (invokeAuth0Tool url st w.now w.tokenWire w.backing).events⟩
      | .ok d =>
          match extractFinalText w.phase2Wire with
          | .error e => ⟨.error e,
              (invokeAuth0Tool url st w.now w.tokenWire w.backing).state,
              [Event.geminiPhase1 prompt] ++ [Event.toolInvoked n] ++
                (invokeAuth0Tool url st w.now w.tokenWire w.backing).events ++
                [Event.geminiPhase2 (phase2UserText prompt d) n d]⟩
          | .ok t => ⟨.ok t,
              (invokeAuth0Tool url st w.now w.tokenWire w.backing).state,
              [Event.geminiPhase1 prompt] ++ [Event.toolInvoked n] ++
                (invokeAuth0Tool url st w.now w.tokenWire w.backing).events ++
                [Event.geminiPhase2 (phase2UserText prompt d) n d]⟩) := by
  unfold orchestrate
  rw [hw]
  simp only [callGeminiWithTools, hfind, hfc, hn]
  have htr : jsTruthyStr (some n) = true := by simp [jsTruthyStr, hne]
  rw [htr]
  simp only [Option.getD_some, hurl, if_true]

/-- Recognizer for tool-invocation events. -/
def Event.isToolInvoked : Event → Bool
  | .toolInvoked _ => true
  | _ => false

theorem invokeAuth0Tool_events_mem (url : String) (st : TokenState) (now : Int)
    (tw : TokenWire) (bk : String → BackingWire) :
    ∀ e ∈ (invokeAuth0Tool url st now tw bk).events,
      e = Event.tokenEndpoint ∨ e = Event.backingApi url := by
  intro e he
  unfold invokeAuth0Tool at he
  rcases Bool.eq_false_or_eq_true (jsTruthyStr (getAuth0Token st now tw).token) with h2 | h2 <;>
    by_cases h1 : (getAuth0Token st now tw).networkCalls = 0 <;>
      cases hbk : bk url <;>
        simp [h1, h2, hbk] at he <;>
          tauto

theorem invokeAuth0Tool_ok_backing (url : String) (st : TokenState) (now : Int)
    (tw : TokenWire) (bk : String → BackingWire) (d : ToolResult)
    (h : (invokeAuth0Tool url st now tw bk).result = .ok d) :
    bk url = BackingWire.ok d := by
  unfold invokeAuth0Tool at h
  rcases Bool.eq_false_or_eq_true (jsTruthyStr (getAuth0Token st now tw).token) with h2 | h2 <;>
    cases hbk : bk url <;>
      simp [h2, hbk] at h
  rw [h]

theorem invokeAuth0Tool_filter_toolInvoked (url : String) (st : TokenState)
    (now : Int) (tw : TokenWire) (bk : String → BackingWire) :
    ((invokeAuth0Tool url st now tw bk).events.filter Event.isToolInvoked) = [] := by
  rw [List.filter_eq_nil_iff]
  intro e he
  rcases invokeAuth0Tool_events_mem url st now tw bk e he with h | h <;>
    simp [h, Event.isToolInvoked]

theorem invokeAuth0Tool_no_phase2 (url : String) (st : TokenState) (now : Int)
    (tw : TokenWire) (bk : String → BackingWire) (ut fn : String) (d : ToolResult) :
    Event.geminiPhase2 ut fn d ∉ (invokeAuth0Tool url st now tw bk).events := by
  intro he
  rcases invokeAuth0Tool_events_mem url st now tw bk _ he with h | h <;> simp at h

/-! ## Claim C1 -/

/-- C1: when the phase-1 call succeeds and its response contains no
function-call part while its first part carries truthy text, the handler
performs no credential fetch, no tool invocation and no phase-2 call
(the trace holds only the phase-1 call and the cache state is untouched),
and answers HTTP 200 with the phase-1 text verbatim. -/
theorem c1_plain_text_passthrough (req : Request) (w : World) (st : TokenState)
    (content : Content) (cs : List Candidate) (t : String)
    (hm : req.method = "POST") (hp : jsTruthyStr req.prompt = true)
    (hw : w.phase1Wire = GeminiWire.ok (some (⟨some content⟩ :: cs)))
    (hnofc : ∀ q ∈ content.parts.getD [], q.functionCall = none)
    (ht : firstPartText content = some t) (hne : t ≠ "") :
    handler req w st = ⟨200, Body.responseField (some t),
      [Event.geminiPhase1 (req.prompt.getD "")], st⟩ := by
  have hfind : (content.parts.getD []).find? (fun q => q.functionCall.isSome) = none := by
    rw [List.find?_eq_none]
    intro q hq
    simp [hnofc q hq]
  have hor := orchestrate_plain (req.prompt.getD "") w st content cs hw hfind
  have hplain : plainResponseText content = t := by
    simp [plainResponseText, ht, hne]
  rw [handler_of_ok req w st (some t) hm hp (by rw [hor, hplain]), hor, hplain]

/-- A run in which phase 1 answers with plain text. -/
def plainWorld : World :=
  { auth0Domain := "tenant.auth0.example"
    now := 0
    tokenWire := TokenWire.err "unused"
    backing := fun _ => BackingWire.err 500 "unused"
    phase1Wire := GeminiWire.ok
      (some [⟨some ⟨some [⟨none, none, some "Hi, how can I help?"⟩]⟩⟩])
    phase2Wire := GeminiWire.ok none }

/-- Witness for C1 at a concrete input. -/
theorem c1_plain_text_passthrough_witness :
    handler ⟨"POST", some "hello"⟩ plainWorld ⟨"", 0⟩ =
      ⟨200, Body.responseField (some "Hi, how can I help?"),
        [Event.geminiPhase1 "hello"], ⟨"", 0⟩⟩ :=
  c1_plain_text_passthrough ⟨"POST", some "hello"⟩ plainWorld ⟨"", 0⟩
    ⟨some [⟨none, none, some "Hi, how can I help?"⟩]⟩ [] "Hi, how can I help?"
    rfl (by decide) rfl (by decide) rfl (by decide)

/-! ## Claim C7 -/

/-- C7: a POST request whose `prompt` field is missing or the empty string
is answered HTTP 400 with `Prompt is required.` and no collaborator call
of any kind is made (empty trace, untouched state). -/
theorem c7_empty_prompt (req : Request) (w : World) (st : TokenState)
    (hm : req.method = "POST") (hp : req.prompt = none ∨ req.prompt = some "") :
    handler req w st = ⟨400, Body.errorField "Prompt is required.", [], st⟩ := by
  unfold handler
  rw [if_neg (by simp [hm])]
  have hfalse : jsTruthyStr req.prompt = false := by
    rcases hp with h | h <;> simp [h, jsTruthyStr]
  simp [hfalse]

/-- Witness for C7 at a concrete input (empty-string prompt). -/
theorem c7_empty_prompt_witness :
    handler ⟨"POST", some ""⟩ plainWorld ⟨"", 0⟩ =
      ⟨400, Body.errorField "Prompt is required.", [], ⟨"", 0⟩⟩ :=
  c7_empty_prompt ⟨"POST", some ""⟩ plainWorld ⟨"", 0⟩ rfl (Or.inr rfl)

/-! ## Claim C10 -/

/-- C10: when phase 1 succeeds with a candidate whose content has no
function-call part and whose first part carries no (truthy) text — for
example an empty parts list — the handler answers HTTP 200 with the fixed
fallback string, not an error. -/
theorem c10_fallback_text (req : Request) (w : World) (st : TokenState)
    (content : Content) (cs : List Candidate)
    (hm : req.method = "POST") (hp : jsTruthyStr req.prompt = true)
    (hw : w.phase1Wire = GeminiWire.ok (some (⟨some content⟩ :: cs)))
    (hnofc : ∀ q ∈ content.parts.getD [], q.functionCall = none)
    (ht : jsTruthyStr (firstPartText content) = false) :
    handler req w st = ⟨200, Body.responseField (some fallbackText),
      [Event.geminiPhase1 (req.prompt.getD "")], st⟩ := by
  have hfind : (content.parts.getD []).find? (fun q => q.functionCall.isSome) = none := by
    rw [List.find?_eq_none]
    intro q hq
    simp [hnofc q hq]
  have hor := orchestrate_plain (req.prompt.getD "") w st content cs hw hfind
  have hplain : plainResponseText content = fallbackText := by
    unfold plainResponseText
    cases hft : firstPartText content with
    | none => rfl
    | some t =>
        rw [hft] at ht
        simp [jsTruthyStr] at ht
        simp [ht]
  rw [handler_of_ok req w st (some fallbackText) hm hp (by rw [hor, hplain]),
    hor, hplain]

/-- A run in which phase 1 succeeds with a candidate whose parts list is
empty. -/
def emptyPartsWorld : World :=
  { auth0Domain := "tenant.auth0.example"
    now := 0
    tokenWire := TokenWire.err "unused"
    backing := fun _ => BackingWire.err 500 "unused"
    phase1Wire := GeminiWire.ok (some [⟨some ⟨some []⟩⟩])
    phase2Wire := GeminiWire.ok none }

/-- Witness for C10 at a concrete input (empty parts list). -/
theorem c10_fallback_text_witness :
    handler ⟨"POST", some "hello"⟩ emptyPartsWorld ⟨"", 0⟩ =
      ⟨200, Body.responseField (some fallbackText),
        [Event.geminiPhase1 "hello"], ⟨"", 0⟩⟩ :=
  c10_fallback_text ⟨"POST", some "hello"⟩ emptyPartsWorld ⟨"", 0⟩
    ⟨some []⟩ [] rfl (by decide) rfl (by decide) rfl

/-! ## Claim C5 -/

/-- A fully working run in which phase 1 names `toString` — not one of the
three registered tool names, but an inherited `Object.prototype`
member. -/
def protoToStringWorld : World :=
  { auth0Domain := "tenant.auth0.example"
    now := 0
    tokenWire := TokenWire.err "unused"
    backing := fun _ => BackingWire.err 500 "unused"
    phase1Wire := GeminiWire.ok
      (some [⟨some ⟨some [⟨some ⟨some "toString"⟩, none, none⟩]⟩⟩])
    phase2Wire := GeminiWire.ok
      (some [⟨some ⟨some [⟨none, none, some "A summary."⟩]⟩⟩]) }

set_option maxRecDepth 8192 in
/-- C5 is false on the code for names inherited from `Object.prototype`:
when phase 1 names `toString` — which is not one of the three registered
tool names — the bracket lookup `Auth0Api["toString"]` at line 255 is
truthy, so far from terminating in a `ToolNotFound` failure the handler
calls the inherited function, sends its result `[object Object]` to
phase 2, and answers HTTP 200. -/
theorem proto_member_not_rejected_cex :
    handler ⟨"POST", some "hi"⟩ protoToStringWorld ⟨"", 0⟩ =
      ⟨200, Body.responseField (some "A summary."),
        [Event.geminiPhase1 "hi", Event.toolInvoked "toString",
          Event.geminiPhase2 (phase2UserText "hi" "\"[object Object]\"")
            "toString" "\"[object Object]\""],
        ⟨"", 0⟩⟩ := by
  decide

/-- C5 (amended): when phase 1 names a tool that is neither one of the
three registered keys nor an inherited `Object.prototype` member (the own
lookup and the prototype lookup both being case-sensitive exact string
matches), the request ends in a `toolNotFound` failure, the trace holds
only the phase-1 call — so no token-endpoint call, no backing-API call,
no tool invocation and no phase-2 call — and the caller sees the generic
500.  A prototype-member name instead makes line 256 call the inherited
function. -/
theorem c5_unknown_tool_rejected (req : Request) (w : World) (st : TokenState)
    (content : Content) (cs : List Candidate) (p : Part) (fc : FunctionCallObj)
    (n : String)
    (hm : req.method = "POST") (hp : jsTruthyStr req.prompt = true)
    (hw : w.phase1Wire = GeminiWire.ok (some (⟨some content⟩ :: cs)))
    (hfind : (content.parts.getD []).find? (fun q => q.functionCall.isSome) = some p)
    (hfc : p.functionCall = some fc) (hn : fc.name = some n) (hne : n ≠ "")
    (hu1 : n ≠ "list_users") (hu2 : n ≠ "get_tenant_settings")
    (hu3 : n ≠ "list_signing_keys")
    (hproto : objectProtoMember n = none) :
    (orchestrate (req.prompt.getD "") w st).result =
      .error (Failure.toolNotFound n) ∧
    handler req w st = ⟨500, Body.errorField genericErrorText,
      [Event.geminiPhase1 (req.prompt.getD "")], st⟩ := by
  have hurl : auth0ApiUrl w.auth0Domain n = none := by
    unfold auth0ApiUrl
    rw [if_neg hu1, if_neg hu2, if_neg hu3]
  have hor : orchestrate (req.prompt.getD "") w st =
      ⟨.error (.toolNotFound n), st, [Event.geminiPhase1 (req.prompt.getD "")]⟩ := by
    unfold orchestrate
    rw [hw]
    simp only [callGeminiWithTools, hfind, hfc, hn]
    have htr : jsTruthyStr (some n) = true := by simp [jsTruthyStr, hne]
    rw [htr]
    simp only [Option.getD_some, hurl, hproto, if_true]
  refine ⟨by rw [hor], ?_⟩
  rw [handler_of_error req w st _ hm hp (by rw [hor]), hor]

/-- A run in which phase 1 names the unregistered, case-variant tool
`List_users`, with every other collaborator fully working. -/
def unknownToolWorld : World :=
  { auth0Domain := "tenant.auth0.example"
    now := 0
    tokenWire := TokenWire.ok "tok" 86400
    backing := fun _ => BackingWire.ok "[]"
    phase1Wire := GeminiWire.ok
      (some [⟨some ⟨some [⟨some ⟨some "List_users"⟩, none, none⟩]⟩⟩])
    phase2Wire := GeminiWire.ok none }

/-- Witness for C5 (amended) at a concrete input: the case variant
`List_users` of a registered key (and not a prototype member) is rejected
without any backing-API or phase-2 call. -/
theorem c5_unknown_tool_rejected_witness :
    (orchestrate "list users" unknownToolWorld ⟨"", 0⟩).result =
      .error (Failure.toolNotFound "List_users") ∧
    handler ⟨"POST", some "list users"⟩ unknownToolWorld ⟨"", 0⟩ =
      ⟨500, Body.errorField genericErrorText,
        [Event.geminiPhase1 "list users"], ⟨"", 0⟩⟩ :=
  c5_unknown_tool_rejected ⟨"POST", some "list users"⟩ unknownToolWorld ⟨"", 0⟩
    ⟨some [⟨some ⟨some "List_users"⟩, none, none⟩]⟩ []
    ⟨some ⟨some "List_users"⟩, none, none⟩ ⟨some "List_users"⟩ "List_users"
    rfl (by decide) rfl (by decide) rfl rfl (by decide)
    (by decide) (by decide) (by decide) (by decide)

/-! ## Claim C9 -/

/-- C9: whatever failure the orchestration ends in — `gatewayError`,
`credentialUnavailable`, `toolNotFound` or `upstreamError`, with whatever
message, status or upstream body it carries — the HTTP answer is always
status 500 with the one fixed generic body, which is a constant string
mentioning none of the failure's data. -/
theorem c9_all_failures_generic_500 (req : Request) (w : World) (st : TokenState)
    (e : Failure)
    (hm : req.method = "POST") (hp : jsTruthyStr req.prompt = true)
    (he : (orchestrate (req.prompt.getD "") w st).result = .error e) :
    (handler req w st).status = 500 ∧
    (handler req w st).body = Body.errorField genericErrorText := by
  rw [handler_of_error req w st e hm hp he]
  exact ⟨rfl, rfl⟩

/-- A run whose phase-1 call fails with a non-success status and a
sensitive upstream body. -/
def gatewayDownWorld : World :=
  { auth0Domain := "tenant.auth0.example"
    now := 0
    tokenWire := TokenWire.err "unused"
    backing := fun _ => BackingWire.err 500 "unused"
    phase1Wire := GeminiWire.httpError 503 "secret upstream detail"
    phase2Wire := GeminiWire.ok none }

/-- Witness for C9 at a concrete input. -/
theorem c9_all_failures_generic_500_witness :
    (handler ⟨"POST", some "hi"⟩ gatewayDownWorld ⟨"", 0⟩).status = 500 ∧
    (handler ⟨"POST", some "hi"⟩ gatewayDownWorld ⟨"", 0⟩).body =
      Body.errorField genericErrorText :=
  c9_all_failures_generic_500 ⟨"POST", some "hi"⟩ gatewayDownWorld ⟨"", 0⟩
    (Failure.gatewayError
      "Gemini API call failed with status: 503. Response: secret upstream detail")
    rfl (by decide) rfl

/-! ## Claim C2 -/

/-- C2: when phase 1 names a registered tool, the handler invokes exactly
that tool exactly once (the trace holds exactly one tool-invocation event
and it carries that name), and any phase-2 call in the trace carries the
original prompt, that tool's name, and exactly the data that tool's own
backing endpoint returned — passed through unmodified, never another
tool's result. -/
theorem c2_tool_invoked_exactly_once (req : Request) (w : World) (st : TokenState)
    (content : Content) (cs : List Candidate) (p : Part) (fc : FunctionCallObj)
    (n url : String)
    (hm : req.method = "POST") (hp : jsTruthyStr req.prompt = true)
    (hw : w.phase1Wire = GeminiWire.ok (some (⟨some content⟩ :: cs)))
    (hfind : (content.parts.getD []).find? (fun q => q.functionCall.isSome) = some p)
    (hfc : p.functionCall = some fc) (hn : fc.name = some n) (hne : n ≠ "")
    (hurl : auth0ApiUrl w.auth0Domain n = some url) :
    ((handler req w st).events.filter Event.isToolInvoked) =
      [Event.toolInvoked n] ∧
    (∀ ut fn d, Event.geminiPhase2 ut fn d ∈ (handler req w st).events →
      fn = n ∧ w.backing url = BackingWire.ok d ∧
      ut = phase2UserText (req.prompt.getD "") d) := by
  have hor := orchestrate_tool_shape (req.prompt.getD "") w st content cs p fc
    n url hw hfind hfc hn hne hurl
  have hfilter := invokeAuth0Tool_filter_toolInvoked url st w.now w.tokenWire w.backing
  have hmem := invokeAuth0Tool_events_mem url st w.now w.tokenWire w.backing
  cases hr : (invokeAuth0Tool url st w.now w.tokenWire w.backing).result with
  | error e =>
      rw [hr] at hor
      have hh := handler_of_error req w st e hm hp (by rw [hor])
      rw [hh, hor]
      constructor
      · simp only [List.filter_append, hfilter, List.append_nil]
        simp [Event.isToolInvoked]
      · intro ut fn d hd
        simp only [List.append_assoc, List.mem_append] at hd
        rcases hd with hd | hd
        · simp at hd
        rcases hd with hd | hd
        · simp at hd
        · rcases hmem _ hd with h | h <;> simp at h
  | ok d0 =>
      rw [hr] at hor
      cases hx : extractFinalText w.phase2Wire with
      | error e =>
          rw [hx] at hor
          have hh := handler_of_error req w st e hm hp (by rw [hor])
          rw [hh, hor]
          constructor
          · simp only [List.filter_append, hfilter, List.append_nil]
            simp [Event.isToolInvoked]
          · intro ut fn d hd
            simp only [List.append_assoc, List.mem_append] at hd
            rcases hd with hd | hd
            · simp at hd
            rcases hd with hd | hd
            · simp at hd
            rcases hd with hd | hd
            · rcases hmem _ hd with h | h <;> simp at h
            · simp at hd
              obtain ⟨h1, h2, h3⟩ := hd
              refine ⟨h2, ?_, ?_⟩
              · rw [h3]
                exact invokeAuth0Tool_ok_backing url st w.now w.tokenWire w.backing d0 hr
              · rw [h1, h3]
      | ok t =>
          rw [hx] at hor
          have hh := handler_of_ok req w st t hm hp (by rw [hor])
          rw [hh, hor]
          constructor
          · simp only [List.filter_append, hfilter, List.append_nil]
            simp [Event.isToolInvoked]
          · intro ut fn d hd
            simp only [List.append_assoc, List.mem_append] at hd
            rcases hd with hd | hd
            · simp at hd
            rcases hd with hd | hd
            · simp at hd
            rcases hd with hd | hd
            · rcases hmem _ hd with h | h <;> simp at h
            · simp at hd
              obtain ⟨h1, h2, h3⟩ := hd
              refine ⟨h2, ?_, ?_⟩
              · rw [h3]
                exact invokeAuth0Tool_ok_backing url st w.now w.tokenWire w.backing d0 hr
              · rw [h1, h3]

/-- A fully working run in which phase 1 names `list_users`. -/
def listUsersWorld : World :=
  { auth0Domain := "tenant.auth0.example"
    now := 0
    tokenWire := TokenWire.ok "tok" 86400
    backing := fun u =>
      if u = "https://tenant.auth0.example/api/v2/users" then
        BackingWire.ok "[\"alice\",\"bob\"]"
      else BackingWire.err 404 "wrong endpoint"
    phase1Wire := GeminiWire.ok
      (some [⟨some ⟨some [⟨some ⟨some "list_users"⟩, none, none⟩]⟩⟩])
    phase2Wire := GeminiWire.ok
      (some [⟨some ⟨some [⟨none, none, some "There are 2 users."⟩]⟩⟩]) }

/-- Witness for C2 at a concrete input. -/
theorem c2_tool_invoked_exactly_once_witness :
    ((handler ⟨"POST", some "how many users"⟩ listUsersWorld ⟨"", 0⟩).events.filter
      Event.isToolInvoked) = [Event.toolInvoked "list_users"] :=
  (c2_tool_invoked_exactly_once ⟨"POST", some "how many users"⟩ listUsersWorld
    ⟨"", 0⟩ ⟨some [⟨some ⟨some "list_users"⟩, none, none⟩]⟩ []
    ⟨some ⟨some "list_users"⟩, none, none⟩ ⟨some "list_users"⟩ "list_users"
    "https://tenant.auth0.example/api/v2/users"
    rfl (by decide) rfl (by decide) rfl rfl (by decide) (by decide)).1

/-! ## Claim C6 -/

/-- A fully working run in which the phase-1 response carries the
function-call marker only under the snake-case key `function_call`
(naming the registered tool `list_users`); the camel-case `functionCall`
key is absent. -/
def snakeMarkerWorld : World :=
  { auth0Domain := "tenant.auth0.example"
    now := 0
    tokenWire := TokenWire.ok "tok" 86400
    backing := fun _ => BackingWire.ok "[]"
    phase1Wire := GeminiWire.ok
      (some [⟨some ⟨some [⟨none, some ⟨some "list_users"⟩, none⟩]⟩⟩])
    phase2Wire := GeminiWire.ok
      (some [⟨some ⟨some [⟨none, none, some "done"⟩]⟩⟩]) }

/-- C6 is false on the code: line 246 only reads the camel-case
`functionCall` key, so a response carrying the marker only under
`function_call` does not take the tool-invocation path — with a fully
working credential, tool and phase-2 environment, the handler answers the
fallback text after a single phase-1 call and never invokes the named
tool. -/
theorem snake_marker_not_recognized_cex :
    handler ⟨"POST", some "list users"⟩ snakeMarkerWorld ⟨"", 0⟩ =
      ⟨200, Body.responseField (some fallbackText),
        [Event.geminiPhase1 "list users"], ⟨"", 0⟩⟩ ∧
    Event.toolInvoked "list_users" ∉
      (handler ⟨"POST", some "list users"⟩ snakeMarkerWorld ⟨"", 0⟩).events := by
  decide

/-- C6 (amended): the handler recognizes the function-call directive only
under the camel-case key `functionCall`.  Whenever some part carries a
truthy camel-case marker naming a registered tool, the tool-invocation
path is taken; whenever no part carries the camel-case key — whatever
snake-case `function_call` keys the parts may carry — the request stays on
the plain-text path and the phase-1 call is its only collaborator call. -/
theorem marker_recognized_only_camelCase (w : World) (st : TokenState)
    (prompt : String) (content : Content) (cs : List Candidate)
    (hw : w.phase1Wire = GeminiWire.ok (some (⟨some content⟩ :: cs))) :
    (∀ p fc n url,
      (content.parts.getD []).find? (fun q => q.functionCall.isSome) = some p →
      p.functionCall = some fc → fc.name = some n → n ≠ "" →
      auth0ApiUrl w.auth0Domain n = some url →
      Event.toolInvoked n ∈ (orchestrate prompt w st).events) ∧
    ((∀ q ∈ content.parts.getD [], q.functionCall = none) →
      (orchestrate prompt w st).events = [Event.geminiPhase1 prompt]) := by
  constructor
  · intro p fc n url hfind hfc hn hne hurl
    rw [orchestrate_tool_shape prompt w st content cs p fc n url hw hfind hfc hn hne hurl]
    cases hr : (invokeAuth0Tool url st w.now w.tokenWire w.backing).result with
    | error e => simp
    | ok d => cases hx : extractFinalText w.phase2Wire <;> simp
  · intro hnofc
    have hfind : (content.parts.getD []).find? (fun q => q.functionCall.isSome) = none := by
      rw [List.find?_eq_none]
      intro q hq
      simp [hnofc q hq]
    rw [orchestrate_plain prompt w st content cs hw hfind]

/-- Witness for C6 (amended) at a concrete input: in the world above, the
snake-case-only response keeps the trace to the single phase-1 call. -/
theorem marker_recognized_only_camelCase_witness :
    (orchestrate "list users" snakeMarkerWorld ⟨"", 0⟩).events =
      [Event.geminiPhase1 "list users"] :=
  (marker_recognized_only_camelCase snakeMarkerWorld ⟨"", 0⟩ "list users"
    ⟨some [⟨none, some ⟨some "list_users"⟩, none⟩]⟩ [] rfl).2 (by decide)

/-! ## Claim C8 -/

/-- C8: both gateway calls turn a non-success HTTP status, and a response
missing the expected candidate-content structure, into a `gatewayError`
failure instead of a successful result.  Phase 1 fails on non-2xx, on a
missing `candidates` field and on an empty `candidates` array; when the
first candidate lacks `content` the orchestration as a whole fails with a
`gatewayError` (the `undefined` content makes line 245 throw); phase 2
fails on non-2xx and whenever `candidates`, the first candidate's
`content`, or its `parts` is missing or empty. -/
theorem gateway_failures_are_errors :
    (∀ status body, callGeminiWithTools (GeminiWire.httpError status body) =
      .error (.gatewayError ("Gemini API call failed with status: " ++
        toString status ++ ". Response: " ++ body))) ∧
    (∃ m, callGeminiWithTools (GeminiWire.ok none) = .error (.gatewayError m)) ∧
    (∃ m, callGeminiWithTools (GeminiWire.ok (some [])) =
      .error (.gatewayError m)) ∧
    (∀ prompt dom now tw bk p2 cs st, ∃ m,
      (orchestrate prompt
        ⟨dom, now, tw, bk, GeminiWire.ok (some (⟨none⟩ :: cs)), p2⟩ st).result =
        .error (.gatewayError m)) ∧
    (∀ status body, extractFinalText (GeminiWire.httpError status body) =
      .error (.gatewayError ("Gemini API call failed with status: " ++
        toString status ++ ". Response: " ++ body))) ∧
    (∃ m, extractFinalText (GeminiWire.ok none) = .error (.gatewayError m)) ∧
    (∃ m, extractFinalText (GeminiWire.ok (some [])) = .error (.gatewayError m)) ∧
    (∀ cs, ∃ m, extractFinalText (GeminiWire.ok (some (⟨none⟩ :: cs))) =
      .error (.gatewayError m)) ∧
    (∀ cs, ∃ m, extractFinalText (GeminiWire.ok (some (⟨some ⟨none⟩⟩ :: cs))) =
      .error (.gatewayError m)) ∧
    (∀ cs, ∃ m, extractFinalText (GeminiWire.ok (some (⟨some ⟨some []⟩⟩ :: cs))) =
      .error (.gatewayError m)) := by
  refine ⟨fun s b => rfl, ⟨_, rfl⟩, ⟨_, rfl⟩, fun prompt dom now tw bk p2 cs st => ⟨_, rfl⟩,
    fun s b => rfl, ⟨_, rfl⟩, ⟨_, rfl⟩, fun cs => ⟨_, rfl⟩, fun cs => ⟨_, rfl⟩,
    fun cs => ⟨_, rfl⟩⟩

end TempChat
